import Mathlib

/-!
Shallow embedding of the viewport snapshot logic of `takesnap.py`
(`ViewportSnapshotTool`): the display-state save / mutate / capture /
restore sequence of `generate_snapshot`, the path handling around the
host `playblast` call, and the per-panel batch loop of
`execute_snapshot`.  The host application is modelled as explicit
state: per-panel display flags, isolate-selection state, the behaviour
of the capture call, the global selection, the current frame, and a
file system mapping paths to file sizes.
-/

namespace SnapShotTool

/-- The fixed enumerated set of viewport display flags handled by
`generate_snapshot` (the union of `flags_to_query` and the keys of the
mutation dictionaries in `takesnap.py`). -/
inductive Flag where
  | allObjects | polymeshes | nurbsSurfaces | nurbsCurves | subdivSurfaces
  | planes | lights | cameras | joints | ikHandles | deformers
  | dynamicConstraints | locators | dimensions | handles | pivots
  | textures | strokes | fluids | follicles | hairSystems
  | nCloths | nParticles | nRigids
  | displayAppearance | displayTextures | displayLights | shadows
  | wireframeOnShaded | xray | jointXray
  | grid | hud | manipulators
  deriving DecidableEq, Repr

/-- Raw result of the host `cmds.playblast` call: it can raise an
exception, return `None`, return a bare string, or return a list of
paths (the code checks all four shapes). -/
inductive PBResult where
  | raises
  | retNone
  | retStr (s : String)
  | retList (ls : List String)
  deriving DecidableEq, Repr

/-- Errors `generate_snapshot` can raise: the `ValueError` for a missing
panel, and a propagated `playblast` exception. -/
inductive GSErr where
  | panelNotFound
  | playblastError
  deriving DecidableEq, Repr

/-- Host-side state of one model panel.  `flags` holds the current
display flag values; `readable f = false` models a flag whose
`modelEditor` query raises `RuntimeError` on this panel type (the code
skips such flags when saving).  `pb` is the configured behaviour of the
host capture call on this panel, and `camera` the result of the
`modelEditor` camera query (`none` models a query failure). -/
structure PanelState where
  flags : Flag → Bool
  readable : Flag → Bool
  isolateAvailable : Bool
  isolateState : Bool
  pb : PBResult
  camera : Option String

/-- Global host state: the panels by name, the current object selection
(`cmds.ls(selection=True)`), the current frame (`cmds.currentTime`), and
the file system (`none` = file absent, `some sz` = file of size `sz`). -/
structure Host where
  panels : String → Option PanelState
  selection : List String
  currentFrame : Nat
  fs : String → Option Nat

/-- Arguments of `generate_snapshot` in `takesnap.py`. -/
structure GSArgs where
  panel : String
  filepath : String
  width : Nat
  height : Nat
  display_filter : String
  display_mode : String
  is_preview : Bool

/-! ### Python string primitives used by the path handling -/

/-- Python substring test `needle in s`, on character lists. -/
def containsSub (needle : List Char) : List Char → Bool
  | [] => needle.isEmpty
  | c :: rest => needle.isPrefixOf (c :: rest) || containsSub needle rest

/-- Python substring test `needle in s`. -/
def pyContains (s needle : String) : Bool :=
  containsSub needle.data s.data

/-- Fuel-driven worker for `pyReplace`: replaces non-overlapping
occurrences of `needle` left to right, exactly as Python
`str.replace` does for a non-empty needle.  The fuel is at least the
length of the scanned list at every call site, so it never runs out
when the needle is non-empty. -/
def replaceFuel (needle repl : List Char) : Nat → List Char → List Char
  | _, [] => []
  | 0, s => s
  | fuel + 1, c :: rest =>
    if needle.isPrefixOf (c :: rest) then
      repl ++ replaceFuel needle repl fuel (List.drop needle.length (c :: rest))
    else
      c :: replaceFuel needle repl fuel rest

/-- Python `s.replace(needle, repl)` for a non-empty needle. -/
def pyReplace (s needle repl : String) : String :=
  ⟨replaceFuel needle.data repl.data s.data.length s.data⟩

/-- Python `s.zfill(width)` for the digit strings produced here: pads
with leading zeros up to `width`. -/
def zfill (width : Nat) (s : String) : String :=
  if s.length < width then ⟨List.replicate (width - s.length) '0' ++ s.data⟩ else s

/-- Association-list lookup for flag dictionaries (first match wins;
the sources build dictionaries with unique keys). -/
def lookupD (entries : List (Flag × Bool)) (f : Flag) : Option Bool :=
  match entries with
  | [] => none
  | (g, v) :: rest => if f = g then some v else lookupD rest f

/-- `posixpath.join` as used by `execute_snapshot` (no drive handling;
the tool only joins a folder with a bare file name). -/
def pathJoin (a b : String) : String :=
  if b.data.head? = some '/' then b
  else if a = "" then b
  else if a.data.getLast? = some '/' then a ++ b
  else a ++ "/" ++ b

/-! ### The flag sets of `generate_snapshot` (translated from source) -/

/-- `flags_to_query` from `generate_snapshot` (source order). -/
def flags_to_query : List Flag :=
  [.allObjects, .polymeshes, .nurbsSurfaces, .nurbsCurves, .subdivSurfaces,
   .planes, .lights, .cameras, .joints, .ikHandles, .deformers,
   .dynamicConstraints, .locators, .dimensions, .handles, .pivots,
   .textures, .strokes, .fluids, .follicles, .hairSystems,
   .nCloths, .nParticles, .nRigids,
   .displayAppearance, .displayTextures, .displayLights, .shadows,
   .wireframeOnShaded, .xray, .jointXray,
   .grid, .hud, .manipulators]

/-- `settings_to_disable` from `generate_snapshot` (source order):
the fixed set of category-affecting flags, all turned off before the
filter-specific flags are enabled. -/
def settings_to_disable : List (Flag × Bool) :=
  [(.allObjects, false), (.polymeshes, false), (.nurbsSurfaces, false), (.nurbsCurves, false),
   (.subdivSurfaces, false), (.planes, false), (.lights, false), (.cameras, false),
   (.joints, false), (.ikHandles, false), (.deformers, false), (.dynamicConstraints, false),
   (.locators, false), (.manipulators, false), (.dimensions, false), (.handles, false),
   (.pivots, false), (.textures, false), (.strokes, false), (.fluids, false), (.follicles, false),
   (.hairSystems, false), (.nCloths, false), (.nParticles, false), (.nRigids, false)]

/-- `settings_to_enable` computed from the filter key in
`generate_snapshot` (the `if`/`elif` chain with the unknown-key
fallback to `allObjects`). -/
def settings_to_enable (display_filter : String) : List (Flag × Bool) :=
  if display_filter = "all" then [(.allObjects, true)]
  else if display_filter = "mesh" then [(.polymeshes, true), (.subdivSurfaces, true)]
  else if display_filter = "joint" then [(.joints, true)]
  else if display_filter = "mesh_joint" then
    [(.polymeshes, true), (.subdivSurfaces, true), (.joints, true)]
  else if display_filter = "nurbs" then [(.nurbsCurves, true), (.nurbsSurfaces, true)]
  else [(.allObjects, true)]

/-- One `cmds.modelEditor(panel, edit=True, **settings)` call: sets every
flag in the dictionary, leaves all others unchanged. -/
def writeFlags (ps : PanelState) (settings : List (Flag × Bool)) : PanelState :=
  { ps with flags := fun f =>
      match lookupD settings f with
      | some v => v
      | none => ps.flags f }

/-! ### The phases of `generate_snapshot` -/

/-- Phase 1 (save): `original_settings` — each flag of `flags_to_query`
whose `modelEditor` query succeeds, with its current value, in query
order. -/
def saved_settings (ps : PanelState) : List (Flag × Bool) :=
  flags_to_query.filterMap fun f =>
    if ps.readable f then some (f, ps.flags f) else none

/-- Phase 1 (save): `isolation_state` — the current isolate-selection
state when the panel supports isolation, `False` otherwise. -/
def saved_isolation (ps : PanelState) : Bool :=
  if ps.isolateAvailable then ps.isolateState else false

/-- Phase 2a (display mode): returns
`(show_ornaments, isolate_activated, updated panel)`.  Only the
`selected_only` branch with a non-empty selection on an
isolation-capable panel writes the isolate-selection state. -/
def applyDisplayMode (display_mode : String) (selection : List String) (ps : PanelState) :
    Bool × Bool × PanelState :=
  if display_mode = "scene_objects" then (false, false, ps)
  else if display_mode = "viewport_all" then (true, false, ps)
  else if display_mode = "selected_only" then
    if selection ≠ [] ∧ ps.isolateAvailable = true then
      (false, true, { ps with isolateState := true })
    else (false, false, ps)
  else (true, false, ps)

/-- Phase 2b (object filter): disable the whole fixed category set,
then enable exactly the flags implied by the filter key. -/
def applyObjectFilter (display_filter : String) (ps : PanelState) : PanelState :=
  writeFlags (writeFlags ps settings_to_disable) (settings_to_enable display_filter)

/-- The `"####"` frame-number placeholder token. -/
def frame_token : String := "####"

/-- Interpretation of the raw `playblast` return value: first element of
a non-empty list, a non-empty string as-is, otherwise fall back to the
requested path. -/
def path_to_check (raw : PBResult) (requested : String) : String :=
  match raw with
  | .retList (p :: _) => p
  | .retStr s => if s = "" then requested else s
  | _ => requested

/-- Phase 3b (path resolution): substitute the `"####"` placeholder with
the zero-padded (4-digit) current frame number; a path without the
token is used unchanged.  (`path_to_check` is always a string here, so
the `final_filepath = None` branches of the source are unreachable and
the result is always `some`.) -/
def resolve_final_path (raw : PBResult) (requested : String) (start_frame : Nat) :
    Option String :=
  let p := path_to_check raw requested
  if pyContains p frame_token then
    some (pyReplace p frame_token (zfill 4 (Nat.repr start_frame)))
  else some p

/-- Phase 3c (file check and preview bookkeeping): on an existing,
non-empty-named final file a preview capture deletes the distinct
initial placeholder file and records the final path; a missing file (or
no valid path) clears the recorded preview path; a batch capture leaves
the recorded path alone.  Returns the updated host (file system) and
the updated `temp_preview_file`. -/
def file_check (args : GSArgs) (final : Option String) (h : Host) (tmp : Option String) :
    Host × Option String :=
  match final with
  | some fp =>
    if fp ≠ "" ∧ (h.fs fp).isSome then
      if args.is_preview then
        (if args.filepath ≠ fp ∧ (h.fs args.filepath).isSome then
           { h with fs := fun p => if p = args.filepath then none else h.fs p }
         else h,
         some fp)
      else (h, tmp)
    else
      if args.is_preview then (h, none) else (h, tmp)
  | none => if args.is_preview then (h, none) else (h, tmp)

/-- Phase 4a (`finally` block, isolate part): restore the
isolate-selection state, but only when it was activated here and only
when it differs from the panel's current value. -/
def restore_isolate (ps : PanelState)
    (isolate_activated isolate_available isolation_state : Bool) : PanelState :=
  if isolate_activated && isolate_available then
    if ps.isolateState = isolation_state then ps
    else { ps with isolateState := isolation_state }
  else ps

/-- Phase 4 (`finally` block): restore the isolate-selection state,
then re-apply every saved flag value (the saved dictionary is applied
only when non-empty, mirroring `if original_settings:`). -/
def restore_display (ps : PanelState) (saved : List (Flag × Bool))
    (isolate_activated isolate_available isolation_state : Bool) : PanelState :=
  if saved.isEmpty then restore_isolate ps isolate_activated isolate_available isolation_state
  else writeFlags (restore_isolate ps isolate_activated isolate_available isolation_state) saved

/-- Replace one panel of the host. -/
def Host.setPanel (h : Host) (name : String) (ps : PanelState) : Host :=
  { h with panels := fun q => if q = name then some ps else h.panels q }

/-- The panel state after the full save / mutate / restore sequence of
`generate_snapshot` on a panel in state `ps`: phases 1 (save), 2
(mutate) and 4 (restore) composed.  The `finally` block runs on both
exit paths, so this is the panel state left behind by every run of
`generate_snapshot` on an existing panel. -/
def gs_restored_panel (args : GSArgs) (h : Host) (ps : PanelState) : PanelState :=
  restore_display
    (applyObjectFilter args.display_filter (applyDisplayMode args.display_mode h.selection ps).2.2)
    (saved_settings ps)
    (applyDisplayMode args.display_mode h.selection ps).2.1
    ps.isolateAvailable
    (saved_isolation ps)

/-- `generate_snapshot` from `takesnap.py`: panel-existence check, save,
mutate, capture, path resolution, file check, and the guaranteed
restore on both the normal and the exception exit path.  The display
mutations never change the capture behaviour of the panel, so the
`playblast` outcome is read off the pre-state's `pb` field.  Returns
the Python outcome (`ok` or raised error), the updated host, and the
updated `temp_preview_file`. -/
def generate_snapshot (args : GSArgs) (h : Host) (tmp : Option String) :
    Except GSErr Unit × Host × Option String :=
  match h.panels args.panel with
  | none => (Except.error GSErr.panelNotFound, h, tmp)
  | some ps =>
    match ps.pb with
    | PBResult.raises =>
      (Except.error GSErr.playblastError, h.setPanel args.panel (gs_restored_panel args h ps), tmp)
    | raw =>
      let fc := file_check args (resolve_final_path raw args.filepath h.currentFrame) h tmp
      (Except.ok (), fc.1.setPanel args.panel (gs_restored_panel args h ps), fc.2)

/-! ### The batch driver (`execute_snapshot` per-panel loop) -/

/-- Shared capture settings read from the UI by `execute_snapshot`. -/
structure ExecCfg where
  folder_path : String
  filename_base : String
  width : Nat
  height : Nat
  filter_key : String
  mode_key : String
  extension : String

/-- Replacement of `|` and `:` by `_` in the camera name
(`safe_cam_name` in the source). -/
def sanitize_cam (s : String) : String :=
  pyReplace (pyReplace s "|" "_") ":" "_"

/-- The per-panel file name suffix: the sanitized camera name when the
`modelEditor` camera query succeeds, the panel name otherwise. -/
def panel_filename_suffix (h : Host) (panel : String) : String :=
  match h.panels panel with
  | some ps =>
    match ps.camera with
    | some cam => "_" ++ sanitize_cam cam
    | none => "_" ++ panel
  | none => "_" ++ panel

/-- The full requested output path for one panel of the batch. -/
def batch_filepath (cfg : ExecCfg) (h : Host) (panel : String) : String :=
  pathJoin cfg.folder_path (cfg.filename_base ++ panel_filename_suffix h panel ++ cfg.extension)

/-- One iteration of the `execute_snapshot` loop: build the file path,
run `generate_snapshot` (non-preview), and report the requested path on
success or the caught exception on failure. -/
def process_panel (cfg : ExecCfg) (h : Host) (panel : String) :
    Except GSErr String × Host :=
  let filepath := batch_filepath cfg h panel
  let r := generate_snapshot
    ⟨panel, filepath, cfg.width, cfg.height, cfg.filter_key, cfg.mode_key, false⟩ h none
  match r.1 with
  | Except.ok _ => (Except.ok filepath, r.2.1)
  | Except.error e => (Except.error e, r.2.1)

/-- The per-panel loop of `execute_snapshot` (after the UI validation):
each panel is processed inside its own `try`/`except`, successes are
collected into `success_files`, failures into `error_panels`, and both
lists are returned together. -/
def execute_snapshot (cfg : ExecCfg) (panels : List String) (h : Host) :
    List String × List String × Host :=
  match panels with
  | [] => ([], [], h)
  | p :: rest =>
    let r := process_panel cfg h p
    let rec_result := execute_snapshot cfg rest r.2
    match r.1 with
    | Except.ok fp => (fp :: rec_result.1, rec_result.2.1, rec_result.2.2)
    | Except.error _ => (rec_result.1, p :: rec_result.2.1, rec_result.2.2)

/-- Whether `generate_snapshot` completes without raising for a panel:
it must exist and its capture call must not raise.  (All other exit
paths of the model return normally.) -/
def gs_ok (h : Host) (p : String) : Bool :=
  match h.panels p with
  | some ps => match ps.pb with | PBResult.raises => false | _ => true
  | none => false

/-- The display decision of `update_preview` after `generate_snapshot`
returns (lines 284–299 of the source): the preview image is shown only
when the call succeeded, a preview file path is recorded, the file
exists, and its size is positive. -/
def preview_displayed (snapshot_ok : Bool) (tmp : Option String) (h : Host) : Bool :=
  match tmp with
  | some p =>
    snapshot_ok && (p ≠ "") &&
      (match h.fs p with
       | some sz => decide (0 < sz)
       | none => false)
  | none => false

/-- The keys of the fixed category disable set. -/
def disable_keys : List Flag := settings_to_disable.map Prod.fst

/-! ### Concrete hosts used by witnesses, counterexamples and the
concrete parts of claims -/

/-- Sample flag assignment for the concrete hosts below. -/
def demo_flags : Flag → Bool :=
  fun f => decide (f = Flag.grid ∨ f = Flag.joints ∨ f = Flag.xray)

/-- A fully readable, isolation-capable panel with flags `demo_flags`
and a configurable capture behaviour. -/
def demo_panel (pb : PBResult) : PanelState :=
  { flags := demo_flags
    readable := fun _ => true
    isolateAvailable := true
    isolateState := false
    pb := pb
    camera := some "persp" }

/-- A shared batch configuration. -/
def demo_cfg : ExecCfg :=
  { folder_path := "proj", filename_base := "snap", width := 1920, height := 1080,
    filter_key := "all", mode_key := "scene_objects", extension := ".jpg" }

/-- Three-panel host whose second panel's capture call raises. -/
def demo_host3 : Host :=
  { panels := fun q =>
      if q = "modelPanel1" then some (demo_panel (PBResult.retStr "proj/snap_persp.jpg"))
      else if q = "modelPanel2" then some (demo_panel PBResult.raises)
      else if q = "modelPanel4" then some (demo_panel (PBResult.retStr "proj/snap_persp.jpg"))
      else none
    selection := []
    currentFrame := 1
    fs := fun p => if p = "proj/snap_persp.jpg" then some 2048 else none }

/-- Host whose capture succeeds but leaves a zero-byte output file. -/
def zb_host : Host :=
  { panels := fun _ => some (demo_panel (PBResult.retStr "proj/snap_persp.jpg"))
    selection := []
    currentFrame := 1
    fs := fun p => if p = "proj/snap_persp.jpg" then some 0 else none }

/-- Host whose capture call returns a path with the `"####"`
placeholder, with the substituted file present and non-empty. -/
def ph_host : Host :=
  { panels := fun _ => some (demo_panel (PBResult.retStr "proj/snap.####.jpg"))
    selection := []
    currentFrame := 7
    fs := fun p => if p = "proj/snap.0007.jpg" then some 500 else none }

/-- Host with no panels at all. -/
def empty_host : Host :=
  { panels := fun _ => none, selection := [], currentFrame := 0, fs := fun _ => none }

/-- A panel with one unreadable flag, isolation on, whose capture call
raises. -/
def w_panel : PanelState :=
  { flags := demo_flags
    readable := fun f => decide (f ≠ Flag.xray)
    isolateAvailable := true
    isolateState := true
    pb := PBResult.raises
    camera := some "persp" }

/-- Host holding `w_panel` under every name, with a non-empty
selection. -/
def w_host : Host :=
  { panels := fun _ => some w_panel
    selection := ["pCube1"]
    currentFrame := 12
    fs := fun _ => none }

/-- Batch-style arguments with isolation-requesting display mode. -/
def w_args : GSArgs :=
  { panel := "modelPanel4", filepath := "proj/snap_persp.jpg", width := 1920, height := 1080,
    display_filter := "mesh_joint", display_mode := "selected_only", is_preview := false }

/-- Batch-style arguments with mode `selected_only`. -/
def w8_args : GSArgs :=
  { panel := "modelPanel1", filepath := "proj/snap_persp.jpg", width := 1920, height := 1080,
    display_filter := "all", display_mode := "selected_only", is_preview := false }

/-- Batch-style arguments with mode `viewport_all`. -/
def w9_args : GSArgs :=
  { panel := "modelPanel1", filepath := "proj/snap_persp.jpg", width := 1920, height := 1080,
    display_filter := "nurbs", display_mode := "viewport_all", is_preview := false }

/-- Preview-style arguments. -/
def pv_args : GSArgs :=
  { panel := "modelPanel1", filepath := "tmp_prev.jpg", width := 320, height := 180,
    display_filter := "all", display_mode := "scene_objects", is_preview := true }

/-- Host whose capture reports the path `out.jpg` which does not
exist afterwards. -/
def pv_missing_host : Host :=
  { panels := fun _ => some (demo_panel (PBResult.retStr "out.jpg"))
    selection := []
    currentFrame := 1
    fs := fun _ => none }

/-- Host whose capture reports the path `out.jpg` which exists with
size zero. -/
def pv_zero_host : Host :=
  { panels := fun _ => some (demo_panel (PBResult.retStr "out.jpg"))
    selection := []
    currentFrame := 1
    fs := fun p => if p = "out.jpg" then some 0
      else if p = "tmp_prev.jpg" then some 10 else none }

/-! ### Helper lemmas -/

theorem lookupD_saved_of_readable (ps : PanelState) (L : List Flag) (f : Flag)
    (hr : ps.readable f = true) (hm : f ∈ L) :
    lookupD (L.filterMap fun g => if ps.readable g then some (g, ps.flags g) else none) f
      = some (ps.flags f) := by
  induction L with
  | nil => cases hm
  | cons g rest ih =>
    rcases List.mem_cons.mp hm with hfg | hmem
    · subst hfg
      simp [List.filterMap_cons, hr, lookupD]
    · by_cases hgf : f = g
      · subst hgf
        simp [List.filterMap_cons, hr, lookupD]
      · cases hg : ps.readable g with
        | true => simp [List.filterMap_cons, hg, lookupD, hgf, ih hmem]
        | false => simp [List.filterMap_cons, hg, ih hmem]

theorem lookupD_saved_of_unreadable (ps : PanelState) (L : List Flag) (f : Flag)
    (hr : ps.readable f = false) :
    lookupD (L.filterMap fun g => if ps.readable g then some (g, ps.flags g) else none) f
      = none := by
  induction L with
  | nil => rfl
  | cons g rest ih =>
    cases hg : ps.readable g with
    | false => simp [List.filterMap_cons, hg, ih]
    | true =>
      have hfg : f ≠ g := by
        intro he
        subst he
        rw [hr] at hg
        cases hg
      simp [List.filterMap_cons, hg, lookupD, hfg, ih]

theorem restore_isolate_cases (ps : PanelState) (a b c : Bool) :
    restore_isolate ps a b c = ps ∨
    restore_isolate ps a b c = { ps with isolateState := c } := by
  unfold restore_isolate
  split
  · split
    · exact Or.inl rfl
    · exact Or.inr rfl
  · exact Or.inl rfl

theorem restore_isolate_flags (ps : PanelState) (a b c : Bool) :
    (restore_isolate ps a b c).flags = ps.flags := by
  rcases restore_isolate_cases ps a b c with hh | hh <;> rw [hh]

theorem restore_isolate_isolateState (ps : PanelState) (a b c : Bool) :
    (restore_isolate ps a b c).isolateState = if a && b then c else ps.isolateState := by
  unfold restore_isolate
  split
  · rename_i hab
    split
    · rename_i hc
      simp [hab, hc]
    · simp [hab]
  · rename_i hab
    simp [hab]

theorem restore_display_isolateState (ps : PanelState) (saved : List (Flag × Bool)) (a b c : Bool) :
    (restore_display ps saved a b c).isolateState = if a && b then c else ps.isolateState := by
  unfold restore_display
  split <;> simp [writeFlags, restore_isolate_isolateState]

theorem restore_display_statics (ps : PanelState) (saved : List (Flag × Bool)) (a b c : Bool) :
    (restore_display ps saved a b c).pb = ps.pb ∧
    (restore_display ps saved a b c).camera = ps.camera ∧
    (restore_display ps saved a b c).readable = ps.readable ∧
    (restore_display ps saved a b c).isolateAvailable = ps.isolateAvailable := by
  unfold restore_display
  rcases restore_isolate_cases ps a b c with hh | hh <;> rw [hh] <;> split <;>
    exact ⟨rfl, rfl, rfl, rfl⟩

theorem restore_display_flags_of_readable (ps0 ps : PanelState) (a b c : Bool) (f : Flag)
    (hm : f ∈ flags_to_query) (hr : ps0.readable f = true) :
    (restore_display ps (saved_settings ps0) a b c).flags f = ps0.flags f := by
  have hl : lookupD (saved_settings ps0) f = some (ps0.flags f) :=
    lookupD_saved_of_readable ps0 flags_to_query f hr hm
  unfold restore_display
  split
  · rename_i hemp
    exfalso
    rcases hsv : saved_settings ps0 with _ | ⟨e, rest⟩
    · rw [hsv] at hl
      cases hl
    · rw [hsv] at hemp
      simp at hemp
  · simp only [writeFlags]
    rw [hl]

theorem restore_display_flags_of_unreadable (ps0 ps : PanelState) (a b c : Bool) (f : Flag)
    (hr : ps0.readable f = false) :
    (restore_display ps (saved_settings ps0) a b c).flags f = ps.flags f := by
  have hl : lookupD (saved_settings ps0) f = none :=
    lookupD_saved_of_unreadable ps0 flags_to_query f hr
  unfold restore_display
  split
  · exact congrFun (restore_isolate_flags ps a b c) f
  · simp only [writeFlags]
    rw [hl]
    exact congrFun (restore_isolate_flags ps a b c) f

theorem applyObjectFilter_flags (k : String) (ps : PanelState) (f : Flag) :
    (applyObjectFilter k ps).flags f =
      match lookupD (settings_to_enable k) f with
      | some v => v
      | none =>
        match lookupD settings_to_disable f with
        | some v => v
        | none => ps.flags f := rfl

theorem applyObjectFilter_statics (k : String) (ps : PanelState) :
    (applyObjectFilter k ps).isolateState = ps.isolateState ∧
    (applyObjectFilter k ps).pb = ps.pb ∧
    (applyObjectFilter k ps).camera = ps.camera ∧
    (applyObjectFilter k ps).readable = ps.readable ∧
    (applyObjectFilter k ps).isolateAvailable = ps.isolateAvailable :=
  ⟨rfl, rfl, rfl, rfl, rfl⟩

theorem applyDisplayMode_cases (m : String) (sel : List String) (ps : PanelState) :
    (applyDisplayMode m sel ps = (false, true, { ps with isolateState := true })
       ∧ ps.isolateAvailable = true)
    ∨ ((applyDisplayMode m sel ps).2.1 = false ∧ (applyDisplayMode m sel ps).2.2 = ps) := by
  unfold applyDisplayMode
  split
  · exact Or.inr ⟨rfl, rfl⟩
  · split
    · exact Or.inr ⟨rfl, rfl⟩
    · split
      · split
        · rename_i hcond
          exact Or.inl ⟨rfl, hcond.2⟩
        · exact Or.inr ⟨rfl, rfl⟩
      · exact Or.inr ⟨rfl, rfl⟩

theorem applyDisplayMode_preserves (m : String) (sel : List String) (ps : PanelState) :
    (applyDisplayMode m sel ps).2.2.flags = ps.flags ∧
    (applyDisplayMode m sel ps).2.2.readable = ps.readable ∧
    (applyDisplayMode m sel ps).2.2.pb = ps.pb ∧
    (applyDisplayMode m sel ps).2.2.camera = ps.camera ∧
    (applyDisplayMode m sel ps).2.2.isolateAvailable = ps.isolateAvailable := by
  rcases applyDisplayMode_cases m sel ps with ⟨h, _⟩ | ⟨_, h⟩ <;> rw [h] <;>
    exact ⟨rfl, rfl, rfl, rfl, rfl⟩

theorem Host.setPanel_same (h : Host) (name : String) (ps : PanelState) :
    (h.setPanel name ps).panels name = some ps := by
  simp [Host.setPanel]

theorem Host.setPanel_other (h : Host) (name : String) (ps : PanelState) (q : String)
    (hq : q ≠ name) : (h.setPanel name ps).panels q = h.panels q := by
  simp [Host.setPanel, hq]

theorem file_check_panels (args : GSArgs) (final : Option String) (h : Host)
    (tmp : Option String) : (file_check args final h tmp).1.panels = h.panels := by
  rcases final with _ | fp
  · simp only [file_check]
    split <;> rfl
  · simp only [file_check]
    split
    · split
      · split <;> rfl
      · rfl
    · split <;> rfl

theorem gs_restored_flags_readable (args : GSArgs) (h : Host) (ps : PanelState) (f : Flag)
    (hm : f ∈ flags_to_query) (hr : ps.readable f = true) :
    (gs_restored_panel args h ps).flags f = ps.flags f :=
  restore_display_flags_of_readable ps _ _ _ _ f hm hr

theorem gs_restored_isolateState (args : GSArgs) (h : Host) (ps : PanelState) :
    (gs_restored_panel args h ps).isolateState = ps.isolateState := by
  unfold gs_restored_panel
  rw [restore_display_isolateState]
  rcases applyDisplayMode_cases args.display_mode h.selection ps with ⟨hact, hav⟩ | ⟨hact, heq⟩
  · rw [hact, hav]
    simp [saved_isolation, hav]
  · rw [hact]
    simp [(applyObjectFilter_statics args.display_filter _).1, heq]

theorem gs_restored_statics (args : GSArgs) (h : Host) (ps : PanelState) :
    (gs_restored_panel args h ps).pb = ps.pb ∧
    (gs_restored_panel args h ps).camera = ps.camera ∧
    (gs_restored_panel args h ps).readable = ps.readable ∧
    (gs_restored_panel args h ps).isolateAvailable = ps.isolateAvailable := by
  unfold gs_restored_panel
  obtain ⟨r1, r2, r3, r4⟩ := restore_display_statics
    (applyObjectFilter args.display_filter (applyDisplayMode args.display_mode h.selection ps).2.2)
    (saved_settings ps) (applyDisplayMode args.display_mode h.selection ps).2.1
    ps.isolateAvailable (saved_isolation ps)
  obtain ⟨_, m2, m3, m4, m5⟩ := applyDisplayMode_preserves args.display_mode h.selection ps
  obtain ⟨_, o2, o3, o4, o5⟩ := applyObjectFilter_statics args.display_filter
    (applyDisplayMode args.display_mode h.selection ps).2.2
  exact ⟨by rw [r1, o2, m3], by rw [r2, o3, m4], by rw [r3, o4, m2], by rw [r4, o5, m5]⟩

theorem generate_snapshot_panel_result (args : GSArgs) (h : Host) (tmp : Option String)
    (ps : PanelState) (hp : h.panels args.panel = some ps) :
    (generate_snapshot args h tmp).2.1.panels args.panel
      = some (gs_restored_panel args h ps) := by
  simp only [generate_snapshot, hp]
  cases ps.pb <;> simp [Host.setPanel]

theorem generate_snapshot_ok (args : GSArgs) (h : Host) (tmp : Option String)
    (ps : PanelState) (hp : h.panels args.panel = some ps)
    (hpb : ps.pb ≠ PBResult.raises) :
    (generate_snapshot args h tmp).1 = Except.ok () := by
  cases hc : ps.pb
  · exact absurd hc hpb
  all_goals simp only [generate_snapshot, hp, hc]

theorem generate_snapshot_panels_desc (args : GSArgs) (h : Host) (tmp : Option String)
    (q : String) :
    (generate_snapshot args h tmp).2.1.panels q = h.panels q ∨
    (∃ ps, h.panels q = some ps ∧ q = args.panel ∧
      (generate_snapshot args h tmp).2.1.panels q = some (gs_restored_panel args h ps)) := by
  rcases hp : h.panels args.panel with _ | ps
  · left
    simp only [generate_snapshot, hp]
  · by_cases hq : q = args.panel
    · subst hq
      exact Or.inr ⟨ps, hp, rfl, generate_snapshot_panel_result args h tmp ps hp⟩
    · left
      simp only [generate_snapshot, hp]
      cases ps.pb <;> simp [Host.setPanel, hq, file_check_panels]

theorem generate_snapshot_gs_ok (args : GSArgs) (h : Host) (tmp : Option String) (q : String) :
    gs_ok (generate_snapshot args h tmp).2.1 q = gs_ok h q := by
  rcases generate_snapshot_panels_desc args h tmp q with heq | ⟨ps, hps, _, heq⟩
  · simp [gs_ok, heq]
  · simp [gs_ok, heq, hps, (gs_restored_statics args h ps).1]

theorem generate_snapshot_suffix (args : GSArgs) (h : Host) (tmp : Option String) (q : String) :
    panel_filename_suffix (generate_snapshot args h tmp).2.1 q = panel_filename_suffix h q := by
  rcases generate_snapshot_panels_desc args h tmp q with heq | ⟨ps, hps, _, heq⟩
  · simp [panel_filename_suffix, heq]
  · simp [panel_filename_suffix, heq, hps, (gs_restored_statics args h ps).2.1]

theorem process_panel_ok_val (cfg : ExecCfg) (h : Host) (p : String)
    (hok : gs_ok h p = true) :
    (process_panel cfg h p).1 = Except.ok (batch_filepath cfg h p) := by
  unfold gs_ok at hok
  rcases hp : h.panels p with _ | ps
  · rw [hp] at hok
    cases hok
  · simp only [hp] at hok
    unfold process_panel
    have hone : (generate_snapshot
        ⟨p, batch_filepath cfg h p, cfg.width, cfg.height, cfg.filter_key, cfg.mode_key, false⟩
        h none).1 = Except.ok () := by
      refine generate_snapshot_ok _ h none ps hp ?_
      intro hraises
      rw [hraises] at hok
      cases hok
    rcases hres : (generate_snapshot
        ⟨p, batch_filepath cfg h p, cfg.width, cfg.height, cfg.filter_key, cfg.mode_key, false⟩
        h none).1 with e | u
    · rw [hres] at hone
      cases hone
    · simp [hres]

theorem process_panel_err (cfg : ExecCfg) (h : Host) (p : String)
    (hok : gs_ok h p = false) :
    ∃ e, (process_panel cfg h p).1 = Except.error e := by
  unfold gs_ok at hok
  unfold process_panel
  rcases hp : h.panels p with _ | ps
  · refine ⟨GSErr.panelNotFound, ?_⟩
    simp only [generate_snapshot, hp]
  · simp only [hp] at hok
    rcases hpb : ps.pb with _ | _ | s | ls
    · refine ⟨GSErr.playblastError, ?_⟩
      simp only [generate_snapshot, hp, hpb]
    all_goals (rw [hpb] at hok; cases hok)

theorem process_panel_host (cfg : ExecCfg) (h : Host) (p : String) :
    (process_panel cfg h p).2 = (generate_snapshot
      ⟨p, batch_filepath cfg h p, cfg.width, cfg.height, cfg.filter_key, cfg.mode_key, false⟩
      h none).2.1 := by
  simp only [process_panel]
  split <;> rfl

theorem process_panel_gs_ok (cfg : ExecCfg) (h : Host) (p q : String) :
    gs_ok (process_panel cfg h p).2 q = gs_ok h q := by
  rw [process_panel_host]
  exact generate_snapshot_gs_ok _ h none q

theorem process_panel_filepath (cfg : ExecCfg) (h : Host) (p q : String) :
    batch_filepath cfg (process_panel cfg h p).2 q = batch_filepath cfg h q := by
  rw [process_panel_host]
  unfold batch_filepath
  rw [generate_snapshot_suffix]

theorem execute_snapshot_cons (cfg : ExecCfg) (p : String) (rest : List String) (h : Host) :
    execute_snapshot cfg (p :: rest) h =
      match (process_panel cfg h p).1 with
      | Except.ok fp =>
          (fp :: (execute_snapshot cfg rest (process_panel cfg h p).2).1,
           (execute_snapshot cfg rest (process_panel cfg h p).2).2.1,
           (execute_snapshot cfg rest (process_panel cfg h p).2).2.2)
      | Except.error _ =>
          ((execute_snapshot cfg rest (process_panel cfg h p).2).1,
           p :: (execute_snapshot cfg rest (process_panel cfg h p).2).2.1,
           (execute_snapshot cfg rest (process_panel cfg h p).2).2.2) := by
  simp only [execute_snapshot]

theorem execute_snapshot_spec (cfg : ExecCfg) :
    ∀ (panels : List String) (h : Host),
      (execute_snapshot cfg panels h).1
        = (panels.filter fun p => gs_ok h p).map (batch_filepath cfg h) ∧
      (execute_snapshot cfg panels h).2.1
        = panels.filter fun p => !gs_ok h p := by
  intro panels
  induction panels with
  | nil => exact fun h => ⟨rfl, rfl⟩
  | cons p rest ih =>
    intro h
    obtain ⟨ih1, ih2⟩ := ih (process_panel cfg h p).2
    have hfix1 : (rest.filter fun q => gs_ok (process_panel cfg h p).2 q)
        = rest.filter fun q => gs_ok h q :=
      List.filter_congr fun q _ => by rw [process_panel_gs_ok]
    have hfix2 : ((rest.filter fun q => gs_ok h q).map
          (batch_filepath cfg (process_panel cfg h p).2))
        = (rest.filter fun q => gs_ok h q).map (batch_filepath cfg h) :=
      List.map_congr_left fun q _ => by rw [process_panel_filepath]
    have hfix3 : (rest.filter fun q => !gs_ok (process_panel cfg h p).2 q)
        = rest.filter fun q => !gs_ok h q :=
      List.filter_congr fun q _ => by rw [process_panel_gs_ok]
    rw [hfix1, hfix2] at ih1
    rw [hfix3] at ih2
    cases hok : gs_ok h p
    · obtain ⟨e, he⟩ := process_panel_err cfg h p hok
      rw [execute_snapshot_cons]
      simp only [he, List.filter_cons, hok, Bool.not_false, Bool.false_eq_true, if_false,
        ite_true, List.map_cons]
      exact ⟨ih1, by rw [ih2]⟩
    · rw [execute_snapshot_cons]
      simp only [process_panel_ok_val cfg h p hok, List.filter_cons, hok, Bool.not_true,
        Bool.false_eq_true, if_false, ite_true, List.map_cons]
      exact ⟨by rw [ih1], ih2⟩

theorem applyDisplayMode_scene_objects (sel : List String) (ps : PanelState) :
    applyDisplayMode "scene_objects" sel ps = (false, false, ps) := rfl

theorem applyDisplayMode_viewport_all (sel : List String) (ps : PanelState) :
    applyDisplayMode "viewport_all" sel ps = (true, false, ps) := rfl

theorem applyDisplayMode_selected_only (sel : List String) (ps : PanelState) :
    applyDisplayMode "selected_only" sel ps =
      if sel ≠ [] ∧ ps.isolateAvailable = true then
        (false, true, { ps with isolateState := true })
      else (false, false, ps) := rfl

theorem settings_to_enable_grid (k : String) :
    lookupD (settings_to_enable k) Flag.grid = none := by
  unfold settings_to_enable
  split
  · rfl
  split
  · rfl
  split
  · rfl
  split
  · rfl
  split <;> rfl

theorem settings_to_enable_hud (k : String) :
    lookupD (settings_to_enable k) Flag.hud = none := by
  unfold settings_to_enable
  split
  · rfl
  split
  · rfl
  split
  · rfl
  split
  · rfl
  split <;> rfl

theorem applyObjectFilter_grid (k : String) (ps : PanelState) :
    (applyObjectFilter k ps).flags Flag.grid = ps.flags Flag.grid := by
  rw [applyObjectFilter_flags]
  simp only [settings_to_enable_grid k]
  rfl

theorem applyObjectFilter_hud (k : String) (ps : PanelState) :
    (applyObjectFilter k ps).flags Flag.hud = ps.flags Flag.hud := by
  rw [applyObjectFilter_flags]
  simp only [settings_to_enable_hud k]
  rfl

theorem gs_restored_untouched (args : GSArgs) (h : Host) (ps : PanelState) (f : Flag)
    (hm : f ∈ flags_to_query)
    (he : lookupD (settings_to_enable args.display_filter) f = none)
    (hd : lookupD settings_to_disable f = none) :
    (gs_restored_panel args h ps).flags f = ps.flags f := by
  by_cases hr : ps.readable f = true
  · exact gs_restored_flags_readable args h ps f hm hr
  · have hr2 : ps.readable f = false := by
      cases hx : ps.readable f
      · rfl
      · exact absurd hx hr
    unfold gs_restored_panel
    rw [restore_display_flags_of_unreadable ps _ _ _ _ f hr2]
    rw [applyObjectFilter_flags]
    simp only [he, hd]
    exact congrFun (applyDisplayMode_preserves args.display_mode h.selection ps).1 f

theorem file_check_preview_exists (args : GSArgs) (fp : String) (h : Host) (tmp : Option String)
    (hprev : args.is_preview = true) (hne : fp ≠ "") (hex : (h.fs fp).isSome = true) :
    (file_check args (some fp) h tmp).2 = some fp ∧
    (file_check args (some fp) h tmp).1.fs fp = h.fs fp := by
  simp only [file_check]
  rw [if_pos ⟨hne, hex⟩, if_pos hprev]
  refine ⟨rfl, ?_⟩
  split
  · rename_i hc
    simp [Ne.symm hc.1]
  · rfl

theorem file_check_preview_missing (args : GSArgs) (fp : String) (h : Host) (tmp : Option String)
    (hprev : args.is_preview = true) (hmiss : h.fs fp = none) :
    (file_check args (some fp) h tmp).2 = none := by
  simp only [file_check]
  rw [if_neg (by simp [hmiss]), if_pos hprev]

theorem generate_snapshot_success_parts (args : GSArgs) (h : Host) (tmp : Option String)
    (ps : PanelState) (hp : h.panels args.panel = some ps) (hpb : ps.pb ≠ PBResult.raises) :
    (generate_snapshot args h tmp).2.2
      = (file_check args (resolve_final_path ps.pb args.filepath h.currentFrame) h tmp).2 ∧
    (generate_snapshot args h tmp).2.1.fs
      = (file_check args (resolve_final_path ps.pb args.filepath h.currentFrame) h tmp).1.fs := by
  cases hc : ps.pb
  · exact absurd hc hpb
  all_goals simp [generate_snapshot, hp, hc, Host.setPanel]

theorem preview_records_resolved (args : GSArgs) (h : Host) (tmp : Option String)
    (ps : PanelState) (fp : String) (hp : h.panels args.panel = some ps)
    (hpb : ps.pb ≠ PBResult.raises) (hprev : args.is_preview = true)
    (hres : resolve_final_path ps.pb args.filepath h.currentFrame = some fp)
    (hne : fp ≠ "") (hex : (h.fs fp).isSome = true) :
    (generate_snapshot args h tmp).2.2 = some fp := by
  rw [(generate_snapshot_success_parts args h tmp ps hp hpb).1, hres]
  exact (file_check_preview_exists args fp h tmp hprev hne hex).1

theorem preview_zero_byte_not_displayed (args : GSArgs) (h : Host) (tmp : Option String)
    (ps : PanelState) (fp : String) (hp : h.panels args.panel = some ps)
    (hpb : ps.pb ≠ PBResult.raises) (hprev : args.is_preview = true)
    (hres : resolve_final_path ps.pb args.filepath h.currentFrame = some fp)
    (hne : fp ≠ "") (hex : (h.fs fp).isSome = true) (hzero : h.fs fp = some 0) :
    preview_displayed true (generate_snapshot args h tmp).2.2
      (generate_snapshot args h tmp).2.1 = false := by
  obtain ⟨h1, h2⟩ := generate_snapshot_success_parts args h tmp ps hp hpb
  rw [hres] at h1 h2
  have hfs : (generate_snapshot args h tmp).2.1.fs fp = some 0 := by
    rw [congrFun h2 fp, (file_check_preview_exists args fp h tmp hprev hne hex).2, hzero]
  rw [h1, (file_check_preview_exists args fp h tmp hprev hne hex).1]
  simp [preview_displayed, hfs]

theorem batch_success_entry (cfg : ExecCfg) (h : Host) (p : String) (ps : PanelState)
    (hp : h.panels p = some ps) (hpb : ps.pb ≠ PBResult.raises) :
    (process_panel cfg h p).1 = Except.ok (batch_filepath cfg h p) := by
  refine process_panel_ok_val cfg h p ?_
  cases hc : ps.pb
  · exact absurd hc hpb
  all_goals simp only [gs_ok, hp, hc]

/-! ### Claim theorems -/

/-- C1: for every call to `generate_snapshot` on an existing panel, on
every exit path (normal return or raised exception, including a
failing host capture call), every display flag that was successfully
read before mutation and the isolate-selection state of the panel
equal their pre-call values after the call returns or propagates. -/
theorem snapshot_restores_display_state (args : GSArgs) (h : Host) (tmp : Option String)
    (ps : PanelState) (hp : h.panels args.panel = some ps) :
    ∃ psR, (generate_snapshot args h tmp).2.1.panels args.panel = some psR ∧
      (∀ f, f ∈ flags_to_query → ps.readable f = true → psR.flags f = ps.flags f) ∧
      psR.isolateState = ps.isolateState :=
  ⟨gs_restored_panel args h ps, generate_snapshot_panel_result args h tmp ps hp,
   fun f hm hr => gs_restored_flags_readable args h ps f hm hr,
   gs_restored_isolateState args h ps⟩

/-- Witness for C1 at a concrete host whose capture call raises, with
one unreadable flag and isolation initially on. -/
theorem snapshot_restores_display_state_witness :
    w_host.panels "modelPanel4" = some w_panel ∧
    (∃ psR, (generate_snapshot w_args w_host none).2.1.panels "modelPanel4" = some psR ∧
      (∀ f, f ∈ flags_to_query → w_panel.readable f = true → psR.flags f = w_panel.flags f) ∧
      psR.isolateState = w_panel.isolateState) :=
  ⟨rfl, snapshot_restores_display_state w_args w_host none w_panel rfl⟩

/-- C2 counterexample: a capture whose host call reports success but
leaves a zero-byte output file is appended to the batch driver's
success list and not to the error list, so a zero-byte file is counted
as a success, contrary to the claim. -/
theorem zero_byte_output_counted_as_success :
    zb_host.fs "proj/snap_persp.jpg" = some 0 ∧
    (execute_snapshot demo_cfg ["modelPanel1"] zb_host).1 = ["proj/snap_persp.jpg"] ∧
    (execute_snapshot demo_cfg ["modelPanel1"] zb_host).2.1 = [] ∧
    (execute_snapshot demo_cfg ["modelPanel1"] zb_host).2.2.fs "proj/snap_persp.jpg"
      = some 0 :=
  ⟨by decide, by decide, by decide, by decide⟩

/-- C2 (amended): when the host capture call returns without raising,
`generate_snapshot` never raises to the caller whatever the state of
the resolved output file; a preview capture whose resolved file is
missing records no output path; a preview capture whose resolved file
exists still records the path even at size zero, and the preview
caller's size check then rejects it; a batch capture is appended to
the success list with its requested path regardless of the file
state. -/
theorem missing_or_empty_output_soft_failure :
    (∀ (args : GSArgs) (h : Host) (tmp : Option String) (ps : PanelState),
       h.panels args.panel = some ps → ps.pb ≠ PBResult.raises →
       (generate_snapshot args h tmp).1 = Except.ok ()) ∧
    (∀ (args : GSArgs) (h : Host) (tmp : Option String) (ps : PanelState) (fp : String),
       h.panels args.panel = some ps → ps.pb ≠ PBResult.raises → args.is_preview = true →
       resolve_final_path ps.pb args.filepath h.currentFrame = some fp →
       h.fs fp = none →
       (generate_snapshot args h tmp).2.2 = none) ∧
    (∀ (args : GSArgs) (h : Host) (tmp : Option String) (ps : PanelState) (fp : String),
       h.panels args.panel = some ps → ps.pb ≠ PBResult.raises → args.is_preview = true →
       resolve_final_path ps.pb args.filepath h.currentFrame = some fp →
       fp ≠ "" → (h.fs fp).isSome = true →
       (generate_snapshot args h tmp).2.2 = some fp ∧
       (h.fs fp = some 0 →
         preview_displayed true (generate_snapshot args h tmp).2.2
           (generate_snapshot args h tmp).2.1 = false)) ∧
    (∀ (cfg : ExecCfg) (h : Host) (p : String) (ps : PanelState),
       h.panels p = some ps → ps.pb ≠ PBResult.raises →
       (process_panel cfg h p).1 = Except.ok (batch_filepath cfg h p)) := by
  refine ⟨?_, ?_, ?_, ?_⟩
  · exact fun args h tmp ps hp hpb => generate_snapshot_ok args h tmp ps hp hpb
  · intro args h tmp ps fp hp hpb hprev hres hmiss
    rw [(generate_snapshot_success_parts args h tmp ps hp hpb).1, hres]
    exact file_check_preview_missing args fp h tmp hprev hmiss
  · intro args h tmp ps fp hp hpb hprev hres hne hex
    exact ⟨preview_records_resolved args h tmp ps fp hp hpb hprev hres hne hex,
      fun hzero =>
        preview_zero_byte_not_displayed args h tmp ps fp hp hpb hprev hres hne hex hzero⟩
  · exact fun cfg h p ps hp hpb => batch_success_entry cfg h p ps hp hpb

/-- Witness for the amended C2: a preview with a missing output file, a
preview with a zero-byte output file, and a batch capture with a
zero-byte output file. -/
theorem missing_or_empty_output_soft_failure_witness :
    (generate_snapshot pv_args pv_missing_host (some "tmp_prev.jpg")).1 = Except.ok () ∧
    (generate_snapshot pv_args pv_missing_host (some "tmp_prev.jpg")).2.2 = none ∧
    ((generate_snapshot pv_args pv_zero_host (some "tmp_prev.jpg")).2.2 = some "out.jpg" ∧
      (pv_zero_host.fs "out.jpg" = some 0 →
        preview_displayed true
          (generate_snapshot pv_args pv_zero_host (some "tmp_prev.jpg")).2.2
          (generate_snapshot pv_args pv_zero_host (some "tmp_prev.jpg")).2.1 = false)) ∧
    (process_panel demo_cfg zb_host "modelPanel1").1
      = Except.ok (batch_filepath demo_cfg zb_host "modelPanel1") :=
  ⟨missing_or_empty_output_soft_failure.1 pv_args pv_missing_host (some "tmp_prev.jpg")
      (demo_panel (PBResult.retStr "out.jpg")) rfl (by decide),
   missing_or_empty_output_soft_failure.2.1 pv_args pv_missing_host (some "tmp_prev.jpg")
      (demo_panel (PBResult.retStr "out.jpg")) "out.jpg" rfl (by decide) rfl (by decide) rfl,
   missing_or_empty_output_soft_failure.2.2.1 pv_args pv_zero_host (some "tmp_prev.jpg")
      (demo_panel (PBResult.retStr "out.jpg")) "out.jpg" rfl (by decide) rfl (by decide)
      (by decide) (by decide),
   missing_or_empty_output_soft_failure.2.2.2 demo_cfg zb_host "modelPanel1"
      (demo_panel (PBResult.retStr "proj/snap_persp.jpg")) rfl (by decide)⟩

/-- C3 counterexample: the host substitutes the placeholder, so the
final produced path `proj/snap.0007.jpg` differs from the requested
path `proj/snap_persp.jpg`, yet the batch driver's success list
reports the requested path, not the resolved one. -/
theorem success_list_reports_requested_path :
    resolve_final_path (PBResult.retStr "proj/snap.####.jpg") "proj/snap_persp.jpg" 7
      = some "proj/snap.0007.jpg" ∧
    ("proj/snap.0007.jpg" : String) ≠ "proj/snap_persp.jpg" ∧
    (execute_snapshot demo_cfg ["modelPanel1"] ph_host).1 = ["proj/snap_persp.jpg"] ∧
    (execute_snapshot demo_cfg ["modelPanel1"] ph_host).2.1 = [] :=
  ⟨by decide, by decide, by decide, by decide⟩

/-- C3 (amended): the batch driver's success list always reports the
originally requested path, even when the host's returned path (after
placeholder substitution) differs; the final resolved path is
propagated to the caller only by the preview flow, through the stored
preview-file path. -/
theorem resolved_path_only_reported_by_preview :
    (∀ (cfg : ExecCfg) (h : Host) (p : String) (ps : PanelState),
       h.panels p = some ps → ps.pb ≠ PBResult.raises →
       (process_panel cfg h p).1 = Except.ok (batch_filepath cfg h p)) ∧
    (∀ (args : GSArgs) (h : Host) (tmp : Option String) (ps : PanelState) (fp : String),
       h.panels args.panel = some ps → ps.pb ≠ PBResult.raises → args.is_preview = true →
       resolve_final_path ps.pb args.filepath h.currentFrame = some fp →
       fp ≠ "" → (h.fs fp).isSome = true →
       (generate_snapshot args h tmp).2.2 = some fp) :=
  ⟨fun cfg h p ps hp hpb => batch_success_entry cfg h p ps hp hpb,
   fun args h tmp ps fp hp hpb hprev hres hne hex =>
     preview_records_resolved args h tmp ps fp hp hpb hprev hres hne hex⟩

/-- Witness for the amended C3 on the placeholder-substituting host:
the batch entry is the requested path and the preview records the
resolved path. -/
theorem resolved_path_only_reported_by_preview_witness :
    (process_panel demo_cfg ph_host "modelPanel1").1
      = Except.ok (batch_filepath demo_cfg ph_host "modelPanel1") ∧
    (generate_snapshot pv_args ph_host none).2.2 = some "proj/snap.0007.jpg" :=
  ⟨resolved_path_only_reported_by_preview.1 demo_cfg ph_host "modelPanel1"
      (demo_panel (PBResult.retStr "proj/snap.####.jpg")) rfl (by decide),
   resolved_path_only_reported_by_preview.2 pv_args ph_host none
      (demo_panel (PBResult.retStr "proj/snap.####.jpg")) "proj/snap.0007.jpg"
      rfl (by decide) rfl (by decide) (by decide) (by decide)⟩

/-- C4: for every filter key the mutator first disables the full fixed
set of category-affecting flags and then enables exactly the flags
implied by the key; an unknown key behaves as `all`; in particular
after `mesh_joint` the enabled category flags are exactly
polygon-mesh, subdivision-surface and joint. -/
theorem filter_key_flag_mapping :
    (∀ ps : PanelState, ∀ f ∈ disable_keys,
       ((applyObjectFilter "all" ps).flags f = true ↔ f = Flag.allObjects) ∧
       ((applyObjectFilter "mesh" ps).flags f = true
         ↔ (f = Flag.polymeshes ∨ f = Flag.subdivSurfaces)) ∧
       ((applyObjectFilter "joint" ps).flags f = true ↔ f = Flag.joints) ∧
       ((applyObjectFilter "mesh_joint" ps).flags f = true
         ↔ (f = Flag.polymeshes ∨ f = Flag.subdivSurfaces ∨ f = Flag.joints)) ∧
       ((applyObjectFilter "nurbs" ps).flags f = true
         ↔ (f = Flag.nurbsCurves ∨ f = Flag.nurbsSurfaces))) ∧
    (∀ k : String, k ≠ "all" → k ≠ "mesh" → k ≠ "joint" → k ≠ "mesh_joint" → k ≠ "nurbs" →
       ∀ ps : PanelState, applyObjectFilter k ps = applyObjectFilter "all" ps) := by
  constructor
  · intro ps f hf
    simp only [disable_keys, settings_to_disable, List.map_cons, List.map_nil] at hf
    fin_cases hf <;>
      simp [applyObjectFilter_flags, settings_to_enable, settings_to_disable, lookupD]
  · intro k h1 h2 h3 h4 h5 ps
    have hk : settings_to_enable k = settings_to_enable "all" := by
      unfold settings_to_enable
      simp [h1, h2, h3, h4, h5]
    unfold applyObjectFilter
    rw [hk]

/-- Witness for C4 at a concrete panel, flag and unknown key. -/
theorem filter_key_flag_mapping_witness :
    ((applyObjectFilter "mesh_joint" (demo_panel PBResult.retNone)).flags Flag.polymeshes = true
      ↔ (Flag.polymeshes = Flag.polymeshes ∨ Flag.polymeshes = Flag.subdivSurfaces
          ∨ Flag.polymeshes = Flag.joints)) ∧
    applyObjectFilter "bogus" (demo_panel PBResult.retNone)
      = applyObjectFilter "all" (demo_panel PBResult.retNone) :=
  ⟨(filter_key_flag_mapping.1 (demo_panel PBResult.retNone) Flag.polymeshes
      (by decide)).2.2.2.1,
   filter_key_flag_mapping.2 "bogus" (by decide) (by decide) (by decide) (by decide)
      (by decide) (demo_panel PBResult.retNone)⟩

/-- C5: a path returned by the capture call (or the fallback requested
path) containing the `"####"` token resolves to that path with the
token replaced by the 4-digit zero-padded current frame number; a path
without the token is used unchanged; `shot.####.jpg` at frame 7
resolves to `shot.0007.jpg`. -/
theorem frame_placeholder_resolution :
    (∀ (raw : PBResult) (requested : String) (frame : Nat),
       (pyContains (path_to_check raw requested) frame_token = true →
          resolve_final_path raw requested frame
            = some (pyReplace (path_to_check raw requested) frame_token
                (zfill 4 (Nat.repr frame)))) ∧
       (pyContains (path_to_check raw requested) frame_token = false →
          resolve_final_path raw requested frame = some (path_to_check raw requested))) ∧
    resolve_final_path (PBResult.retStr "shot.####.jpg") "req.jpg" 7
      = some "shot.0007.jpg" := by
  refine ⟨?_, by decide⟩
  intro raw requested frame
  constructor
  · intro hc
    simp [resolve_final_path, hc]
  · intro hc
    simp [resolve_final_path, hc]

/-- Witness for C5 at a concrete host response and frame. -/
theorem frame_placeholder_resolution_witness :
    pyContains (path_to_check (PBResult.retStr "a/b.####.jpg") "req.jpg") frame_token
      = true ∧
    resolve_final_path (PBResult.retStr "a/b.####.jpg") "req.jpg" 42
      = some (pyReplace (path_to_check (PBResult.retStr "a/b.####.jpg") "req.jpg")
          frame_token (zfill 4 (Nat.repr 42))) :=
  ⟨by decide,
   (frame_placeholder_resolution.1 (PBResult.retStr "a/b.####.jpg") "req.jpg" 42).1
     (by decide)⟩

/-- C6: the batch driver processes each panel independently — the
error list is exactly the panels whose processing raised, in order,
and the success list is exactly the requested paths of the remaining
panels, in order, so one panel's failure never aborts the others; in
the concrete 3-panel batch whose second capture raises, 2 successes
and 1 failure are returned and the second panel's display flags and
isolate-selection state are fully restored. -/
theorem batch_failures_do_not_abort :
    (∀ (cfg : ExecCfg) (panels : List String) (h : Host),
       (execute_snapshot cfg panels h).1
         = (panels.filter fun p => gs_ok h p).map (batch_filepath cfg h) ∧
       (execute_snapshot cfg panels h).2.1 = panels.filter fun p => !gs_ok h p) ∧
    (execute_snapshot demo_cfg ["modelPanel1", "modelPanel2", "modelPanel4"]
        demo_host3).1.length = 2 ∧
    (execute_snapshot demo_cfg ["modelPanel1", "modelPanel2", "modelPanel4"]
        demo_host3).2.1 = ["modelPanel2"] ∧
    ((execute_snapshot demo_cfg ["modelPanel1", "modelPanel2", "modelPanel4"]
        demo_host3).2.2.panels "modelPanel2").map
      (fun ps => (flags_to_query.all fun f => ps.flags f == demo_flags f)
          && (ps.isolateState == false)) = some true :=
  ⟨fun cfg panels h => execute_snapshot_spec cfg panels h,
   by decide, by decide, by decide⟩

/-- C7: calling `generate_snapshot` with a panel identifier that does
not exist raises the panel-not-found error immediately, and the host
state and the recorded preview path are returned exactly as they were:
nothing is mutated, so no restore is needed. -/
theorem missing_panel_fails_fast (args : GSArgs) (h : Host) (tmp : Option String)
    (hp : h.panels args.panel = none) :
    generate_snapshot args h tmp = (Except.error GSErr.panelNotFound, h, tmp) := by
  simp only [generate_snapshot, hp]

/-- Witness for C7 on a host with no panels. -/
theorem missing_panel_fails_fast_witness :
    generate_snapshot w_args empty_host none
      = (Except.error GSErr.panelNotFound, empty_host, none) :=
  missing_panel_fails_fast w_args empty_host none rfl

/-- C8: with mode `selected_only`, isolation is activated exactly when
the current selection is non-empty and the panel supports isolation;
with an empty selection the mutator leaves the panel untouched and the
capture still completes without raising, leaving the isolate-selection
state at its pre-call value. -/
theorem selected_only_isolation_guard :
    (∀ (sel : List String) (ps : PanelState),
       ((applyDisplayMode "selected_only" sel ps).2.1 = true
         ↔ (sel ≠ [] ∧ ps.isolateAvailable = true))) ∧
    (∀ (sel : List String) (ps : PanelState), sel = [] →
       applyDisplayMode "selected_only" sel ps = (false, false, ps)) ∧
    (∀ (args : GSArgs) (h : Host) (tmp : Option String) (ps : PanelState),
       args.display_mode = "selected_only" → h.selection = [] →
       h.panels args.panel = some ps → ps.pb ≠ PBResult.raises →
       (generate_snapshot args h tmp).1 = Except.ok () ∧
       ∃ psR, (generate_snapshot args h tmp).2.1.panels args.panel = some psR ∧
         psR.isolateState = ps.isolateState) := by
  refine ⟨?_, ?_, ?_⟩
  · intro sel ps
    rw [applyDisplayMode_selected_only]
    split
    · rename_i hc
      simp [hc]
    · rename_i hc
      simp [hc]
  · intro sel ps hsel
    subst hsel
    rw [applyDisplayMode_selected_only]
    simp
  · intro args h tmp ps hm hsel hp hpb
    exact ⟨generate_snapshot_ok args h tmp ps hp hpb,
      gs_restored_panel args h ps, generate_snapshot_panel_result args h tmp ps hp,
      gs_restored_isolateState args h ps⟩

/-- Witness for C8 on a concrete host with an empty selection. -/
theorem selected_only_isolation_guard_witness :
    ((applyDisplayMode "selected_only" ["pCube1"] (demo_panel PBResult.retNone)).2.1 = true
      ↔ ((["pCube1"] : List String) ≠ []
          ∧ (demo_panel PBResult.retNone).isolateAvailable = true)) ∧
    applyDisplayMode "selected_only" [] (demo_panel PBResult.retNone)
      = (false, false, demo_panel PBResult.retNone) ∧
    ((generate_snapshot w8_args zb_host none).1 = Except.ok () ∧
      ∃ psR, (generate_snapshot w8_args zb_host none).2.1.panels "modelPanel1" = some psR ∧
        psR.isolateState = (demo_panel (PBResult.retStr "proj/snap_persp.jpg")).isolateState) :=
  ⟨selected_only_isolation_guard.1 ["pCube1"] (demo_panel PBResult.retNone),
   selected_only_isolation_guard.2.1 [] (demo_panel PBResult.retNone) rfl,
   selected_only_isolation_guard.2.2 w8_args zb_host none
     (demo_panel (PBResult.retStr "proj/snap_persp.jpg")) rfl rfl rfl (by decide)⟩

/-- C9: with display mode `viewport_all` or `scene_objects` the mutator
returns the panel unchanged and never activates isolation, so the
isolate-selection state is never written during the whole sequence and
equals its pre-call value afterwards. -/
theorem viewport_modes_never_touch_isolation (args : GSArgs) (h : Host) (tmp : Option String)
    (ps : PanelState)
    (hmode : args.display_mode = "viewport_all" ∨ args.display_mode = "scene_objects")
    (hp : h.panels args.panel = some ps) :
    (applyDisplayMode args.display_mode h.selection ps).2.2 = ps ∧
    (applyDisplayMode args.display_mode h.selection ps).2.1 = false ∧
    ∃ psR, (generate_snapshot args h tmp).2.1.panels args.panel = some psR ∧
      psR.isolateState = ps.isolateState := by
  refine ⟨?_, ?_, gs_restored_panel args h ps, generate_snapshot_panel_result args h tmp ps hp,
    gs_restored_isolateState args h ps⟩
  · rcases hmode with hm | hm <;> rw [hm]
    · rw [applyDisplayMode_viewport_all]
    · rw [applyDisplayMode_scene_objects]
  · rcases hmode with hm | hm <;> rw [hm]
    · rw [applyDisplayMode_viewport_all]
    · rw [applyDisplayMode_scene_objects]

/-- Witness for C9 at mode `viewport_all` on a concrete host. -/
theorem viewport_modes_never_touch_isolation_witness :
    (applyDisplayMode "viewport_all" zb_host.selection
        (demo_panel (PBResult.retStr "proj/snap_persp.jpg"))).2.2
      = demo_panel (PBResult.retStr "proj/snap_persp.jpg") ∧
    (applyDisplayMode "viewport_all" zb_host.selection
        (demo_panel (PBResult.retStr "proj/snap_persp.jpg"))).2.1 = false ∧
    ∃ psR, (generate_snapshot w9_args zb_host none).2.1.panels "modelPanel1" = some psR ∧
      psR.isolateState = (demo_panel (PBResult.retStr "proj/snap_persp.jpg")).isolateState :=
  viewport_modes_never_touch_isolation w9_args zb_host none
    (demo_panel (PBResult.retStr "proj/snap_persp.jpg")) (Or.inl rfl) rfl

/-- C10: the fixed category disable set contains the manipulators flag
but neither grid nor hud; neither mutation phase writes grid or hud,
and after every full run of the sequence on an existing panel both
equal their pre-call values — ornament hiding is carried solely by the
`showOrnaments` argument of the capture call. -/
theorem grid_hud_never_mutated :
    lookupD settings_to_disable Flag.grid = none ∧
    lookupD settings_to_disable Flag.hud = none ∧
    lookupD settings_to_disable Flag.manipulators = some false ∧
    (∀ (k : String) (ps : PanelState),
       (applyObjectFilter k ps).flags Flag.grid = ps.flags Flag.grid ∧
       (applyObjectFilter k ps).flags Flag.hud = ps.flags Flag.hud) ∧
    (∀ (m : String) (sel : List String) (ps : PanelState),
       (applyDisplayMode m sel ps).2.2.flags = ps.flags) ∧
    (∀ (args : GSArgs) (h : Host) (tmp : Option String) (ps : PanelState),
       h.panels args.panel = some ps →
       ∃ psR, (generate_snapshot args h tmp).2.1.panels args.panel = some psR ∧
         psR.flags Flag.grid = ps.flags Flag.grid ∧
         psR.flags Flag.hud = ps.flags Flag.hud) := by
  refine ⟨rfl, rfl, rfl, ?_, ?_, ?_⟩
  · exact fun k ps => ⟨applyObjectFilter_grid k ps, applyObjectFilter_hud k ps⟩
  · exact fun m sel ps => (applyDisplayMode_preserves m sel ps).1
  · intro args h tmp ps hp
    exact ⟨gs_restored_panel args h ps, generate_snapshot_panel_result args h tmp ps hp,
      gs_restored_untouched args h ps Flag.grid (by decide) (settings_to_enable_grid _) rfl,
      gs_restored_untouched args h ps Flag.hud (by decide) (settings_to_enable_hud _) rfl⟩

/-- Witness for C10 at a concrete host (grid flag on, hud flag off, grid
flag unreadable is exercised through `w_panel`'s unreadable xray). -/
theorem grid_hud_never_mutated_witness :
    ∃ psR, (generate_snapshot w_args w_host none).2.1.panels "modelPanel4" = some psR ∧
      psR.flags Flag.grid = w_panel.flags Flag.grid ∧
      psR.flags Flag.hud = w_panel.flags Flag.hud :=
  grid_hud_never_mutated.2.2.2.2.2 w_args w_host none w_panel rfl

end SnapShotTool
